import Mathlib

/-!
Shallow embedding of the toml-rs decoder front-end (`src/decoder/mod.rs`):
the path-tracking `Decoder`, the `DecodeError` model with its `Display`
rendering, and the `decode` / `decode_str` entry points. Theorems settle the
stated properties of this code.
-/

namespace Toml

/-- Modelled from the spec: the Value Tree (the parsed TOML `Value` type lives
in the library root, outside the decoder module). Variants are
scalar (string, integer, float, boolean, datetime), sequence (array) and
table; the table is a mapping from string keys to values. -/
inductive Value where
  | string (s : String)
  | integer (i : Int)
  | float (f : Float)
  | boolean (b : Bool)
  | datetime (s : String)
  | array (xs : List Value)
  | table (kvs : List (String × Value))

/-- Modelled from the spec: each `Value` variant reports a stable type tag
string used in error messages ("string", "integer", "table", "array", ...). -/
def Value.type_str : Value → String
  | .string _ => "string"
  | .integer _ => "integer"
  | .float _ => "float"
  | .boolean _ => "boolean"
  | .datetime _ => "datetime"
  | .array _ => "array"
  | .table _ => "table"

/-- Enumeration of possible errors which can occur while decoding a structure
(`DecodeErrorKind` in `src/decoder/mod.rs`). -/
inductive DecodeErrorKind where
  | ApplicationError (msg : String)
  | ExpectedField (ty : Option String)
  | ExpectedType (expected found : String)
  | ExpectedMapKey (idx : Nat)
  | ExpectedMapElement (idx : Nat)
  | NoEnumVariants
  | NilTooLong
  | SyntaxError
  | EndOfStream
deriving DecidableEq

/-- Description for errors which can occur while decoding a type
(`DecodeError` in `src/decoder/mod.rs`): the optional field path this error
applies to, and the kind of error. -/
structure DecodeError where
  field : Option String
  kind : DecodeErrorKind
deriving DecidableEq

/-- A structure to transform TOML values into Rust values (`Decoder` in
`src/decoder/mod.rs`): the TOML value left over after decoding, and the
accumulated dotted field path (`cur_field`, `None` at the root). -/
structure Decoder where
  toml : Option Value
  cur_field : Option String

/-- Creates a new root decoder, consuming the TOML value to decode
(`Decoder::new`). -/
def Decoder.new (toml : Value) : Decoder :=
  { toml := some toml, cur_field := none }

/-- Derives a child decoder scoped to a child position
(`Decoder::sub_decoder`): the child's value is the given one; its path is the
parent's path when the field name is empty, and otherwise the field name
appended to the parent's path with a dot (or the field name alone when the
parent's path is absent). -/
def Decoder.sub_decoder (d : Decoder) (toml : Option Value) (field : String) :
    Decoder :=
  { toml := toml
    cur_field :=
      if field.length = 0 then
        d.cur_field
      else
        match d.cur_field with
        | none => some field
        | some s => some (s ++ "." ++ field) }

/-- Builds a `DecodeError` of the given kind carrying a clone of the
decoder's current path (`Decoder::err`). -/
def Decoder.err (d : Decoder) (kind : DecodeErrorKind) : DecodeError :=
  { field := d.cur_field, kind := kind }

/-- Builds a type-mismatch error against the value found at the current
position (`Decoder::mismatch`): `ExpectedType` with the found value's type
tag when a value is present, `ExpectedField` otherwise. -/
def Decoder.mismatch (d : Decoder) (expected : String) (found : Option Value) :
    DecodeError :=
  match found with
  | some val => d.err (.ExpectedType expected val.type_str)
  | none => d.err (.ExpectedField (some expected))

/-- State-passing reading of `Decoder::err`: the receiver is taken by shared
reference, so the call yields the error together with the receiver state it
leaves behind, which is the very state it was given. -/
def Decoder.errCall (d : Decoder) (kind : DecodeErrorKind) :
    DecodeError × Decoder :=
  (d.err kind, d)

/-- State-passing reading of `Decoder::mismatch`: as with `Decoder.errCall`,
the receiver is a shared reference, so the state threaded through is
untouched. -/
def Decoder.mismatchCall (d : Decoder) (expected : String)
    (found : Option Value) : DecodeError × Decoder :=
  (d.mismatch expected found, d)

/-- Local helper of the `ExpectedType` arm of `fmt::Display`: the tag
"section" is humanized to "a section", any other tag to "a value of type
`tag`". -/
def humanize (s : String) : String :=
  if s = "section" then "a section" else "a value of type `" ++ s ++ "`"

/-- Rendering of a `DecodeErrorKind`, translated from the body of the
`fmt::Display` implementation for `DecodeError` before the field suffix is
appended. The literal pattern `Some("table")` of the `ExpectedField` arm and
the `s == "section"` test of the `humanize` helper are written as equality
tests. -/
def DecodeErrorKind.render : DecodeErrorKind → String
  | .ApplicationError err => err
  | .ExpectedField expected_type =>
    match expected_type with
    | some e =>
      if e = "table" then "expected a section"
      else "expected a value of type `" ++ e ++ "`"
    | none => "expected a value"
  | .ExpectedType expected found =>
    "expected " ++ humanize expected ++ ", but found " ++ humanize found
  | .ExpectedMapKey idx => "expected at least " ++ toString (idx + 1) ++ " keys"
  | .ExpectedMapElement idx =>
    "expected at least " ++ toString (idx + 1) ++ " elements"
  | .NoEnumVariants => "expected an enum variant to decode to"
  | .NilTooLong => "expected 0-length string"
  | .SyntaxError => "syntax error"
  | .EndOfStream => "end of stream"

/-- Full `fmt::Display` rendering of a `DecodeError`: the kind's rendering,
followed by the key suffix when the error carries a field path. -/
def DecodeError.display (e : DecodeError) : String :=
  match e.field with
  | some s => e.kind.render ++ " for the key `" ++ s ++ "`"
  | none => e.kind.render

/-- Entry point `decode`: builds a root decoder over the value and drives the
external target-type decode logic to completion, discarding error detail via
`.ok()`. The external driver receives the decoder by mutable reference, so it
is embedded as a function from decoder state to either a `DecodeError` or a
result paired with the updated state. -/
def decode {T : Type} (drv : Decoder → Except DecodeError (T × Decoder))
    (toml : Value) : Option T :=
  (drv (Decoder.new toml)).toOption.map Prod.fst

/-- Entry point `decode_str`: parses the text into a TOML table via the
external parser, then decodes the resulting `Value::Table`. The parser
(`Parser::new(s).parse()`) lives outside the decoder module; it is embedded
as a function from the input text to an optional table, as the spec
describes it. -/
def decode_str {T : Type} (parse : String → Option (List (String × Value)))
    (drv : Decoder → Except DecodeError (T × Decoder)) (s : String) :
    Option T :=
  (parse s).bind fun t => decode drv (Value.table t)

/-- Length of an accumulated path: zero when absent. -/
def pathLen : Option String → Nat
  | none => 0
  | some s => s.length

end Toml

namespace Toml

/-- With a non-empty field name and a parent whose path is absent, the child
decoder's path is the field name alone. -/
lemma sub_decoder_cur_field_none (d : Decoder) (t : Option Value) (f : String)
    (hf : f.length ≠ 0) (h : d.cur_field = none) :
    (d.sub_decoder t f).cur_field = some f := by
  simp only [Decoder.sub_decoder, if_neg hf, h]

/-- With a non-empty field name and a parent whose path is p, the child
decoder's path is p, a dot, and the field name. -/
lemma sub_decoder_cur_field_some (d : Decoder) (t : Option Value) (f : String)
    (hf : f.length ≠ 0) (p : String) (h : d.cur_field = some p) :
    (d.sub_decoder t f).cur_field = some (p ++ "." ++ f) := by
  simp only [Decoder.sub_decoder, if_neg hf, h]

/-- Appending a dot and a field name adds one plus the field name's length. -/
lemma length_dot_append (p f : String) :
    (p ++ "." ++ f).length = p.length + 1 + f.length := by
  rw [String.length_append, String.length_append,
    show (".").length = 1 from rfl]

/-- Claim C1, counterexample: the type-mismatch error with expected tag
"table", found tag "string" and field path "a.b" does not render as
"expected a section, but found a value of type `string` for the key `a.b`":
the humanize helper special-cases only the tag "section", not "table". -/
theorem C1_counterexample :
    (DecodeError.mk (some "a.b")
        (.ExpectedType "table" "string")).display ≠
      "expected a section, but found a value of type `string` for the key `a.b`" := by
  decide

/-- Claim C1, amended: the type-mismatch error with expected tag "table",
found tag "string" and field path "a.b" renders exactly as
"expected a value of type `table`, but found a value of type `string` for
the key `a.b`". -/
theorem C1_display_table_string :
    (DecodeError.mk (some "a.b")
        (.ExpectedType "table" "string")).display =
      "expected a value of type `table`, but found a value of type `string` for the key `a.b`" := by
  decide

/-- Claim C2: the root decoder's path is empty, and deriving a child decoder
for a non-empty field name f yields a decoder whose path is "f" when the
parent's path is empty, and "P.f" when the parent's path is P. -/
theorem C2_sub_decoder_path (v : Value) (d : Decoder) (t : Option Value)
    (f : String) (hf : f.length ≠ 0) :
    (Decoder.new v).cur_field = none ∧
    (d.cur_field = none → (d.sub_decoder t f).cur_field = some f) ∧
    (∀ p, d.cur_field = some p →
      (d.sub_decoder t f).cur_field = some (p ++ "." ++ f)) := by
  refine ⟨rfl, ?_, ?_⟩ <;>
    simp only [Decoder.sub_decoder, if_neg hf] <;> intro h
  · rw [h]
  · intro hp; rw [hp]

/-- Claim C2, witness at a concrete root decoder and field name. -/
theorem C2_sub_decoder_path_witness :
    ((Decoder.new (Value.integer 8080)).sub_decoder none "port").cur_field =
      some "port" := by
  exact (C2_sub_decoder_path (Value.integer 8080)
    (Decoder.new (Value.integer 8080)) none "port" (by decide)).2.1 rfl

/-- Claim C3: every error built through `Decoder.err` carries exactly the
decoder's currently accumulated path as its field, for every error kind, and
so does every error built through `Decoder.mismatch`. -/
theorem C3_err_field (d : Decoder) (k : DecodeErrorKind) (e : String)
    (v : Option Value) :
    (d.err k).field = d.cur_field ∧ (d.err k).kind = k ∧
    (d.mismatch e v).field = d.cur_field := by
  refine ⟨rfl, rfl, ?_⟩
  cases v <;> rfl

/-- Claim C3, witness at a concrete decoder and error kind. -/
theorem C3_err_field_witness :
    ((Decoder.mk none (some "a.b")).err .EndOfStream).field = some "a.b" := by
  exact (C3_err_field (Decoder.mk none (some "a.b")) .EndOfStream "x" none).1

/-- Claim C4, counterexample: deriving a sub-decoder with the empty field
name does not strictly grow the path length: from the root it stays at
length zero. -/
theorem C4_counterexample :
    ¬ (pathLen (Decoder.new (Value.boolean true)).cur_field <
        pathLen ((Decoder.new (Value.boolean true)).sub_decoder
          none "").cur_field) := by
  decide

/-- Claim C4, amended: along any sub-decoder derivation the path length never
shrinks; it strictly grows whenever the field name is non-empty; and a path
once accumulated is only ever extended — the parent's path is a prefix of
the child's. -/
theorem C4_path_monotone (d : Decoder) (t : Option Value) (f : String) :
    pathLen d.cur_field ≤ pathLen (d.sub_decoder t f).cur_field ∧
    (f.length ≠ 0 →
      pathLen d.cur_field < pathLen (d.sub_decoder t f).cur_field) ∧
    (∀ p, d.cur_field = some p →
      ∃ r, (d.sub_decoder t f).cur_field = some (p ++ r)) := by
  by_cases hf : f.length = 0
  · simp only [Decoder.sub_decoder, if_pos hf]
    refine ⟨le_refl _, fun h => absurd hf h, fun p hp => ⟨"", ?_⟩⟩
    rw [hp, String.append_empty]
  · cases hc : d.cur_field with
    | none =>
      rw [sub_decoder_cur_field_none d t f hf hc]
      refine ⟨Nat.zero_le _, fun _ => ?_, fun p hp => ?_⟩
      · simpa [pathLen] using Nat.pos_of_ne_zero hf
      · cases hp
    | some p =>
      rw [sub_decoder_cur_field_some d t f hf p hc]
      refine ⟨?_, fun _ => ?_, fun q hq => ?_⟩
      · simp only [pathLen, length_dot_append]; omega
      · simp only [pathLen, length_dot_append]; omega
      · cases hq
        exact ⟨"." ++ f, by rw [String.append_assoc]⟩

/-- Claim C4, witness: concrete derivations exercising the monotone bound,
the strict growth under a non-empty field name, and the prefix extension. -/
theorem C4_path_monotone_witness :
    pathLen (Decoder.mk none (some "a")).cur_field <
      pathLen ((Decoder.mk none (some "a")).sub_decoder none "b").cur_field := by
  exact (C4_path_monotone (Decoder.mk none (some "a")) none "b").2.1 (by decide)

/-- Claim C5: the type-mismatch rendering is "expected a value of type `E`,
but found a value of type `F`", except that a side equal to "section"
renders as "a section". -/
theorem C5_expected_type_render (E F : String) :
    (DecodeError.mk none (.ExpectedType E F)).display =
      "expected " ++
        (if E = "section" then "a section"
         else "a value of type `" ++ E ++ "`") ++
      ", but found " ++
        (if F = "section" then "a section"
         else "a value of type `" ++ F ++ "`") := by
  rfl

/-- Claim C6: the expected-a-field rendering is "expected a value of type
`T`" for a carried type T other than "table", "expected a section" for
"table", and "expected a value" when no type is carried. -/
theorem C6_expected_field_render (T : String) (hT : T ≠ "table") :
    (DecodeError.mk none (.ExpectedField (some T))).display =
      "expected a value of type `" ++ T ++ "`" ∧
    (DecodeError.mk none (.ExpectedField (some "table"))).display =
      "expected a section" ∧
    (DecodeError.mk none (.ExpectedField none)).display =
      "expected a value" := by
  refine ⟨?_, rfl, rfl⟩
  simp only [DecodeError.display, DecodeErrorKind.render, if_neg hT]

/-- Claim C6, witness at the concrete carried type "string". -/
theorem C6_expected_field_render_witness :
    (DecodeError.mk none (.ExpectedField (some "string"))).display =
      "expected a value of type `string`" := by
  exact (C6_expected_field_render "string" (by decide)).1

/-- Claim C7: `decode` runs the external driver on a root decoder built from
the value; it returns the driver's result exactly when the driver succeeds,
and `none` exactly when the driver fails, discarding the error's kind and
field path. -/
theorem C7_decode_spec (T : Type) (drv : Decoder → Except DecodeError (T × Decoder))
    (toml : Value) :
    (∀ t : T, decode drv toml = some t ↔
      ∃ d, drv (Decoder.new toml) = Except.ok (t, d)) ∧
    (decode drv toml = none ↔
      ∃ e, drv (Decoder.new toml) = Except.error e) := by
  cases h : drv (Decoder.new toml) with
  | ok r =>
    obtain ⟨t0, d0⟩ := r
    simp [decode, h, Except.toOption, eq_comm]
  | error e =>
    simp [decode, h, Except.toOption]

/-- Claim C7, witness: a driver that succeeds with a concrete value makes
`decode` return it. -/
theorem C7_decode_spec_witness :
    decode (fun d => Except.ok ((37 : Int), d)) (Value.boolean true) =
      some 37 := by
  exact ((C7_decode_spec Int (fun d => Except.ok ((37 : Int), d))
    (Value.boolean true)).1 37).2
    ⟨Decoder.new (Value.boolean true), rfl⟩

/-- Claim C8: `decode_str` parses the text and then behaves exactly as
`decode` on the resulting table value: it returns `none` when parsing fails,
equals `decode drv (Value.table t)` when parsing yields `t`, and returns a
result exactly when both steps succeed. -/
theorem C8_decode_str_spec (T : Type)
    (parse : String → Option (List (String × Value)))
    (drv : Decoder → Except DecodeError (T × Decoder)) (s : String) :
    (parse s = none → decode_str parse drv s = none) ∧
    (∀ t, parse s = some t →
      decode_str parse drv s = decode drv (Value.table t)) ∧
    (∀ r : T, decode_str parse drv s = some r ↔
      ∃ t, parse s = some t ∧ decode drv (Value.table t) = some r) := by
  refine ⟨fun h => ?_, fun t h => ?_, fun r => ?_⟩
  · simp [decode_str, h]
  · simp [decode_str, h]
  · cases h : parse s with
    | none => simp [decode_str, h]
    | some t =>
      simp only [decode_str, h, Option.some_bind]
      constructor
      · intro hr; exact ⟨t, rfl, hr⟩
      · rintro ⟨t', ht', hr⟩
        cases ht'
        exact hr

/-- Claim C8, witness: a concrete parser and a concrete driver compose as
stated. -/
theorem C8_decode_str_spec_witness :
    decode_str (fun _ => some [("port", Value.integer 8080)])
      (fun d => Except.ok ((5 : Int), d)) "port = 8080" = some 5 := by
  exact (C8_decode_str_spec Int (fun _ => some [("port", Value.integer 8080)])
    (fun d => Except.ok ((5 : Int), d)) "port = 8080").2.1
    [("port", Value.integer 8080)] rfl

/-- Claim C9: `err` and `mismatch` take the decoder by shared reference and
clone the current path, so in state-passing form the decoder handed back is
the one handed in — both its remaining value and its accumulated path are
unchanged — while the error carries a copy of the current path. -/
theorem C9_err_preserves_state (d : Decoder) (k : DecodeErrorKind)
    (e : String) (v : Option Value) :
    (d.errCall k).2 = d ∧
    (d.errCall k).2.toml = d.toml ∧
    (d.errCall k).2.cur_field = d.cur_field ∧
    (d.errCall k).1.field = d.cur_field ∧
    (d.mismatchCall e v).2 = d ∧
    (d.mismatchCall e v).2.toml = d.toml ∧
    (d.mismatchCall e v).2.cur_field = d.cur_field := by
  exact ⟨rfl, rfl, rfl, rfl, rfl, rfl, rfl⟩

/-- Claim C9, witness at a concrete decoder. -/
theorem C9_err_preserves_state_witness :
    ((Decoder.mk (some (Value.string "x")) (some "a")).errCall
      .SyntaxError).2.cur_field = some "a" := by
  exact (C9_err_preserves_state (Decoder.mk (some (Value.string "x")) (some "a"))
    .SyntaxError "y" none).2.2.1

/-- Claim C10: deriving a sub-decoder with the empty field name leaves the
accumulated path identical to the parent's: no segment and no dot is
appended. -/
theorem C10_empty_field_keeps_path (d : Decoder) (t : Option Value) :
    (d.sub_decoder t "").cur_field = d.cur_field := by
  rfl

end Toml
